import Mathlib

/-!
Shallow embedding of the AndicBlue order/payment/inventory ledger logic
(`andicblue_streamlit_gs.py`).

The Google-Sheets tables become in-memory lists of rows inside an `AppState`;
the sheet side effects (`append_row`, `update_cell`) become explicit state
passing.  Monetary amounts and stock counts are modelled as `Int`: the Python
code mixes `int` and `float`, but every value involved is an integral number
of COP, on which the float operations `min`, `max`, `+`, `-` used by
`mark_order_delivered` are exact.  Timestamps (`datetime.now()`) are passed in
as an explicit `fecha` argument.  Python `dict`s (the product → quantity
mapping `productos_cant` and the inventory map) are modelled as association
lists in insertion order; `dict` keys are unique, which is hypothesised
explicitly (`Nodup`) where a proof needs it.  Python exceptions become an
`AppError` value returned next to the unchanged state; the three `ValueError`
messages of the source are distinguished as the three error kinds the spec
names (`NotFoundError`, `ValidationError`, `InsufficientStockError`), each
carrying the data its message carries.
-/

/-- Error kinds raised by the domain logic.  The Python source raises
`ValueError` with three distinct message shapes; each constructor keeps the
message data of its shape. -/
inductive AppError where
  | notFound (msg : String)
  | validation (msg : String)
  | insufficientStock (producto : String) (disponible pedido : Int)

/-- One row of the `Clientes` sheet (`HEAD_CLIENTES`). -/
structure Cliente where
  id : Nat
  nombre : String
  telefono : String
  direccion : String

/-- One row of the `Pedidos` sheet (`HEAD_PEDIDOS`), fields in column order. -/
structure Pedido where
  id : Nat
  fecha : String
  clienteId : Nat
  nombreCliente : String
  productosDetalle : String
  subtotal : Int
  domicilioMonto : Int
  totalPedido : Int
  estado : String
  medioPago : String
  montoPagado : Int
  saldoPendiente : Int

/-- One row of the `FlujoCaja` sheet (`HEAD_FLUJO`), fields in column order. -/
structure FlujoEntry where
  fecha : String
  pedidoId : Nat
  cliente : String
  medioPago : String
  productosRecibido : Int
  domicilioRecibido : Int
  saldoPendienteTotal : Int

/-- One row of the `Gastos` sheet (`HEAD_GASTOS`). -/
structure Gasto where
  fecha : String
  concepto : String
  monto : Int

/-- The five tables of the spreadsheet, as in-memory state. -/
structure AppState where
  clientes : List Cliente
  pedidos : List Pedido
  inventario : List (String × Int)
  flujo : List FlujoEntry
  gastos : List Gasto

/-- The static catalog `PRODUCTOS` (name → unit price in COP), in source order. -/
def PRODUCTOS : List (String × Int) :=
  [("Docena de Arándanos 125g", 52500),
   ("Arandanos_125g", 5000),
   ("Arandanos_250g", 10000),
   ("Arandanos_500g", 20000),
   ("Kilo_industrial", 30000),
   ("Mermelada_azucar", 16000),
   ("Mermelada_sin_azucar", 20000)]

/-- `DOMICILIO_COST` (COP). -/
def DOMICILIO_COST : Int := 3000

/-- Lookup in an association list, first match wins (Python `dict`
lookup / `in` test; keys are unique in every dict the source builds). -/
def dict_get : List (String × Int) → String → Option Int
  | [], _ => none
  | kv :: rest, k => if kv.1 = k then some kv.2 else dict_get rest k

/-- `next_id_for_sheet`: `1` on an empty table, otherwise `max(existing) + 1`.
For a nonempty list of naturals, `foldr max 0` is exactly `max(existing)`. -/
def next_id_for_sheet (ids : List Nat) : Nat :=
  if ids.isEmpty then 1 else ids.foldr max 0 + 1

/-- `add_cliente`: allocate an id and append one row to `Clientes`. -/
def add_cliente (s : AppState) (nombre telefono direccion : String) :
    Nat × AppState :=
  let cid := next_id_for_sheet (s.clientes.map Cliente.id)
  (cid, { s with clientes := s.clientes ++ [⟨cid, nombre, telefono, direccion⟩] })

/-- The `form_add_cliente` handler: rejects an empty name (`st.error
"Nombre requerido"`, no row appended), otherwise calls `add_cliente`.
Together these are the spec's `register_customer`. -/
def form_add_cliente (s : AppState) (n t d : String) :
    Except AppError Nat × AppState :=
  if n = "" then (.error (.validation "Nombre requerido"), s)
  else
    let r := add_cliente s n t d
    (.ok r.1, r.2)

/-- The found-product branch of `update_inventory_after_order`: set the first
row whose `Producto` equals `prod` to `max 0 (current - qty)`. -/
def update_first_stock : List (String × Int) → String → Int → List (String × Int)
  | [], _, _ => []
  | kv :: rest, prod, qty =>
    if kv.1 = prod then (kv.1, max 0 (kv.2 - qty)) :: rest
    else kv :: update_first_stock rest prod qty

/-- One iteration of the `update_inventory_after_order` loop: if the product
is absent a fresh row `(prod, max 0 (-qty))` is appended, otherwise the first
matching row is floored-decremented. -/
def update_one_product (inv : List (String × Int)) (prod : String) (qty : Int) :
    List (String × Int) :=
  if (dict_get inv prod).isSome then update_first_stock inv prod qty
  else inv ++ [(prod, max 0 (-qty))]

/-- `update_inventory_after_order`: the loop over `products_qty.items()`.
The Python code re-reads the sheet only after appends, but since `dict` keys
are distinct each iteration touches a different row, so the sequential fold is
the exact behaviour. -/
def update_inventory_after_order (inv : List (String × Int))
    (products_qty : List (String × Int)) : List (String × Int) :=
  products_qty.foldl (fun acc pq => update_one_product acc pq.1 pq.2) inv

/-- The validation loop of `create_order` (lines 179-185): items with
`q <= 0` are skipped; the first violating item raises, absence of the product
before insufficiency. -/
def checkStock (inv : List (String × Int)) :
    List (String × Int) → Option AppError
  | [] => none
  | pq :: rest =>
    if pq.2 ≤ 0 then checkStock inv rest
    else
      match dict_get inv pq.1 with
      | none => some (.validation ("Producto no existe en inventario: " ++ pq.1))
      | some stock =>
        if stock < pq.2 then some (.insufficientStock pq.1 stock pq.2)
        else checkStock inv rest

/-- `precio = PRODUCTOS.get(p) if p in PRODUCTOS else 0`. -/
def precioOf (p : String) : Int := (dict_get PRODUCTOS p).getD 0

/-- `subtotal` accumulated by the `create_order` loop over ALL items
(the loop has no `q > 0` guard on the subtotal accumulation). -/
def subtotal_of : List (String × Int) → Int
  | [] => 0
  | pq :: rest => precioOf pq.1 * pq.2 + subtotal_of rest

/-- One human-readable detail entry, the f-string of line 194. -/
def detalle_item (p : String) (q : Int) : String :=
  p ++ " x" ++ toString q ++ " (@" ++ toString (precioOf p) ++ ")"

/-- The `detalle` list accumulated by the `create_order` loop, in iteration
order of the input mapping, keeping only items with `q > 0`. -/
def detalle_of : List (String × Int) → List String
  | [] => []
  | pq :: rest =>
    (if 0 < pq.2 then [detalle_item pq.1 pq.2] else []) ++ detalle_of rest

/-- `create_order` (lines 169-208).  `" | ".join(detalle) if detalle else ""`
coincides with `String.intercalate " | "` since the join of `[]` is `""`. -/
def create_order (s : AppState) (fecha : String) (cliente_id : Nat)
    (productos_cant : List (String × Int)) (domicilio_bool : Bool) :
    Except AppError Nat × AppState :=
  match s.clientes.find? (fun c => c.id == cliente_id) with
  | none => (.error (.notFound "ID cliente no encontrado"), s)
  | some cliente =>
    match checkStock s.inventario productos_cant with
    | some e => (.error e, s)
    | none =>
      let subtotal := subtotal_of productos_cant
      let domicilio_monto := if domicilio_bool then DOMICILIO_COST else 0
      let total_pedido := subtotal + domicilio_monto
      let pid := next_id_for_sheet (s.pedidos.map Pedido.id)
      let detalle_str := String.intercalate " | " (detalle_of productos_cant)
      let s1 := { s with pedidos := s.pedidos ++
        [(⟨pid, fecha, cliente_id, cliente.nombre, detalle_str, subtotal,
          domicilio_monto, total_pedido, "Pendiente", "", 0, subtotal⟩ : Pedido)] }
      let s2 := { s1 with
        inventario := update_inventory_after_order s1.inventario productos_cant }
      (.ok pid, s2)

/-- The row update of `mark_order_delivered`: the first row whose
`ID Pedido` matches gets `Estado`, `Medio_pago`, `Monto_pagado`,
`Saldo_pendiente` overwritten. -/
def update_pedido_delivered : List Pedido → Nat → String → Int → Int → List Pedido
  | [], _, _, _, _ => []
  | r :: rest, oid, mp, monto, saldo =>
    if r.id == oid then
      { r with estado := "Entregado", medioPago := mp,
               montoPagado := monto, saldoPendiente := saldo } :: rest
    else r :: update_pedido_delivered rest oid mp monto saldo

/-- `mark_order_delivered` (lines 210-244): the spec's `settle_order`. -/
def mark_order_delivered (s : AppState) (fecha : String) (order_id : Nat)
    (medio_pago : String) (monto_pagado : Int) :
    Except AppError (Int × Int × Int) × AppState :=
  match s.pedidos.find? (fun r => r.id == order_id) with
  | none => (.error (.notFound "Pedido no encontrado"), s)
  | some row =>
    let monto := monto_pagado
    let prod_paid := min monto row.subtotal
    let rem := max 0 (monto - prod_paid)
    let domicilio_paid := min rem row.domicilioMonto
    let saldo_total := (row.subtotal - prod_paid) +
      (row.domicilioMonto - domicilio_paid)
    let s1 := { s with pedidos :=
      update_pedido_delivered s.pedidos order_id medio_pago monto saldo_total }
    let s2 := { s1 with flujo := s1.flujo ++
      [(⟨fecha, order_id, row.nombreCliente, medio_pago,
        prod_paid, domicilio_paid, saldo_total⟩ : FlujoEntry)] }
    (.ok (prod_paid, domicilio_paid, saldo_total), s2)

/-- `add_expense`: append one row to `Gastos`. -/
def add_expense (s : AppState) (fecha concepto : String) (monto : Int) :
    AppState :=
  { s with gastos := s.gastos ++ [⟨fecha, concepto, monto⟩] }

/-- The `form_update_inventory` handler (lines 316-319): add `nueva` to the
first matching row's stock. -/
def replenish_stock : List (String × Int) → String → Int → List (String × Int)
  | [], _, _ => []
  | kv :: rest, prod, nueva =>
    if kv.1 = prod then (kv.1, kv.2 + nueva) :: rest
    else kv :: replenish_stock rest prod nueva

/-- `total_prod_efectivo` (line 348); `sum` of an empty filter is `0`, which
also covers the `if not df_flujo.empty else 0` guard. -/
def total_prod_efectivo (flujo : List FlujoEntry) : Int :=
  ((flujo.filter (fun e => e.medioPago == "Efectivo")).map
    FlujoEntry.productosRecibido).sum

/-- `total_prod_transfer` (line 349). -/
def total_prod_transfer (flujo : List FlujoEntry) : Int :=
  ((flujo.filter (fun e => e.medioPago == "Transferencia")).map
    FlujoEntry.productosRecibido).sum

/-- `total_prod_other` (line 350): every payment method outside the two named
categories. -/
def total_prod_other (flujo : List FlujoEntry) : Int :=
  ((flujo.filter (fun e =>
      !(e.medioPago == "Efectivo" || e.medioPago == "Transferencia"))).map
    FlujoEntry.productosRecibido).sum

/-- `total_prod` (line 351). -/
def total_prod (flujo : List FlujoEntry) : Int :=
  total_prod_efectivo flujo + total_prod_transfer flujo + total_prod_other flujo

/-- `total_domicilios` (line 354), reported separately. -/
def total_domicilios (flujo : List FlujoEntry) : Int :=
  (flujo.map FlujoEntry.domicilioRecibido).sum

/-- `total_gastos` (line 357). -/
def total_gastos (gastos : List Gasto) : Int :=
  (gastos.map Gasto.monto).sum

/-- `saldo_real` (line 360): product income minus expenses. -/
def saldo_real (flujo : List FlujoEntry) (gastos : List Gasto) : Int :=
  total_prod flujo - total_gastos gastos

/-! ### Helper lemmas about the inventory association list -/

lemma dict_get_append_ne (l : List (String × Int)) (k p : String) (v : Int)
    (h : k ≠ p) : dict_get (l ++ [(k, v)]) p = dict_get l p := by
  induction l with
  | nil => simp [dict_get, h]
  | cons kv rest ih =>
    by_cases hk : kv.1 = p <;> simp [dict_get, hk, ih]

lemma dict_get_update_first_ne (inv : List (String × Int)) (prod p : String)
    (qty : Int) (h : prod ≠ p) :
    dict_get (update_first_stock inv prod qty) p = dict_get inv p := by
  induction inv with
  | nil => simp [update_first_stock]
  | cons kv rest ih =>
    by_cases hk : kv.1 = prod
    · rw [update_first_stock, if_pos hk]
      rw [dict_get, dict_get]
      have : ¬ kv.1 = p := by rw [hk]; exact h
      simp [this]
    · rw [update_first_stock, if_neg hk]
      rw [dict_get, dict_get]
      by_cases hp : kv.1 = p
      · simp [hp]
      · simp [hp, ih]

lemma dict_get_update_first_eq (inv : List (String × Int)) (prod : String)
    (qty v : Int) (h : dict_get inv prod = some v) :
    dict_get (update_first_stock inv prod qty) prod = some (max 0 (v - qty)) := by
  induction inv with
  | nil => simp [dict_get] at h
  | cons kv rest ih =>
    by_cases hk : kv.1 = prod
    · rw [dict_get, if_pos hk] at h
      have hv : kv.2 = v := Option.some.inj h
      rw [update_first_stock, if_pos hk, dict_get, if_pos hk, hv]
    · rw [dict_get, if_neg hk] at h
      rw [update_first_stock, if_neg hk, dict_get, if_neg hk]
      exact ih h

lemma dict_get_update_one_ne (inv : List (String × Int)) (prod p : String)
    (qty : Int) (h : prod ≠ p) :
    dict_get (update_one_product inv prod qty) p = dict_get inv p := by
  unfold update_one_product
  by_cases hs : (dict_get inv prod).isSome
  · rw [if_pos hs]; exact dict_get_update_first_ne inv prod p qty h
  · rw [if_neg hs]; exact dict_get_append_ne inv prod p _ h

lemma dict_get_update_one_eq (inv : List (String × Int)) (prod : String)
    (qty v : Int) (h : dict_get inv prod = some v) :
    dict_get (update_one_product inv prod qty) prod = some (max 0 (v - qty)) := by
  unfold update_one_product
  have hs : (dict_get inv prod).isSome := by rw [h]; rfl
  rw [if_pos hs]
  exact dict_get_update_first_eq inv prod qty v h

lemma dict_get_update_inv_not_mem (items : List (String × Int)) :
    ∀ inv p, p ∉ items.map Prod.fst →
      dict_get (update_inventory_after_order inv items) p = dict_get inv p := by
  induction items with
  | nil => intro inv p _; rfl
  | cons pq rest ih =>
    intro inv p hp
    rw [List.map_cons] at hp
    have h1 : pq.1 ≠ p := fun h => hp (by rw [h]; exact List.mem_cons_self _ _)
    have h2 : p ∉ rest.map Prod.fst := fun h => hp (List.mem_cons_of_mem _ h)
    show dict_get (update_inventory_after_order (update_one_product inv pq.1 pq.2) rest) p = _
    rw [ih _ p h2]
    exact dict_get_update_one_ne inv pq.1 p pq.2 h1

lemma dict_get_update_inv_mem (items : List (String × Int)) :
    ∀ inv p q v, (items.map Prod.fst).Nodup → (p, q) ∈ items →
      dict_get inv p = some v →
      dict_get (update_inventory_after_order inv items) p = some (max 0 (v - q)) := by
  induction items with
  | nil => intro inv p q v _ hm; cases hm
  | cons pq rest ih =>
    intro inv p q v hnd hm hget
    rw [List.map_cons, List.nodup_cons] at hnd
    show dict_get (update_inventory_after_order (update_one_product inv pq.1 pq.2) rest) p = _
    rcases List.mem_cons.mp hm with heq | hrest
    · have hp : pq.1 = p := by rw [← heq]
      have hq : pq.2 = q := by rw [← heq]
      have hnotin : p ∉ rest.map Prod.fst := by rw [← hp]; exact hnd.1
      rw [dict_get_update_inv_not_mem rest _ p hnotin, hp, hq]
      exact dict_get_update_one_eq inv p q v hget
    · have hp : pq.1 ≠ p := by
        intro h
        exact hnd.1 (h ▸ (List.mem_map.mpr ⟨(p, q), hrest, rfl⟩))
      exact ih _ p q v hnd.2 hrest
        (by rw [dict_get_update_one_ne inv pq.1 p pq.2 hp]; exact hget)

lemma update_first_stock_nonneg (inv : List (String × Int)) (prod : String)
    (qty : Int) (h : ∀ pv ∈ inv, 0 ≤ pv.2) :
    ∀ pv ∈ update_first_stock inv prod qty, 0 ≤ pv.2 := by
  induction inv with
  | nil => intro pv hpv; cases hpv
  | cons kv rest ih =>
    intro pv hpv
    by_cases hk : kv.1 = prod
    · rw [update_first_stock, if_pos hk] at hpv
      rcases List.mem_cons.mp hpv with heq | hmem
      · rw [heq]; exact le_max_left 0 _
      · exact h pv (List.mem_cons_of_mem _ hmem)
    · rw [update_first_stock, if_neg hk] at hpv
      rcases List.mem_cons.mp hpv with heq | hmem
      · exact heq ▸ h kv (List.mem_cons_self _ _)
      · exact ih (fun x hx => h x (List.mem_cons_of_mem _ hx)) pv hmem

lemma update_one_product_nonneg (inv : List (String × Int)) (prod : String)
    (qty : Int) (h : ∀ pv ∈ inv, 0 ≤ pv.2) :
    ∀ pv ∈ update_one_product inv prod qty, 0 ≤ pv.2 := by
  intro pv hpv
  unfold update_one_product at hpv
  by_cases hs : (dict_get inv prod).isSome
  · rw [if_pos hs] at hpv
    exact update_first_stock_nonneg inv prod qty h pv hpv
  · rw [if_neg hs] at hpv
    rcases List.mem_append.mp hpv with hmem | hmem
    · exact h pv hmem
    · rcases List.mem_singleton.mp hmem with heq
      rw [heq]; exact le_max_left 0 _

lemma update_inventory_nonneg (items : List (String × Int)) :
    ∀ inv, (∀ pv ∈ inv, 0 ≤ pv.2) →
      ∀ pv ∈ update_inventory_after_order inv items, 0 ≤ pv.2 := by
  induction items with
  | nil => intro inv h pv hpv; exact h pv hpv
  | cons pq rest ih =>
    intro inv h pv hpv
    exact ih _ (update_one_product_nonneg inv pq.1 pq.2 h) pv hpv

lemma replenish_stock_nonneg (inv : List (String × Int)) (prod : String)
    (nueva : Int) (hn : 0 ≤ nueva) (h : ∀ pv ∈ inv, 0 ≤ pv.2) :
    ∀ pv ∈ replenish_stock inv prod nueva, 0 ≤ pv.2 := by
  induction inv with
  | nil => intro pv hpv; cases hpv
  | cons kv rest ih =>
    intro pv hpv
    by_cases hk : kv.1 = prod
    · rw [replenish_stock, if_pos hk] at hpv
      rcases List.mem_cons.mp hpv with heq | hmem
      · rw [heq]
        have := h kv (List.mem_cons_self _ _)
        simpa using add_nonneg this hn
      · exact h pv (List.mem_cons_of_mem _ hmem)
    · rw [replenish_stock, if_neg hk] at hpv
      rcases List.mem_cons.mp hpv with heq | hmem
      · exact heq ▸ h kv (List.mem_cons_self _ _)
      · exact ih (fun x hx => h x (List.mem_cons_of_mem _ hx)) pv hmem

/-! ### Helper lemmas about the validation scan `checkStock` -/

lemma checkStock_cons_skip (inv : List (String × Int)) (pq : String × Int)
    (rest : List (String × Int)) (hq : pq.2 ≤ 0) :
    checkStock inv (pq :: rest) = checkStock inv rest := by
  rw [checkStock, if_pos hq]

lemma checkStock_cons_absent (inv : List (String × Int)) (pq : String × Int)
    (rest : List (String × Int)) (hq : ¬ pq.2 ≤ 0)
    (hv : dict_get inv pq.1 = none) :
    checkStock inv (pq :: rest) =
      some (.validation ("Producto no existe en inventario: " ++ pq.1)) := by
  rw [checkStock, if_neg hq, hv]

lemma checkStock_cons_found (inv : List (String × Int)) (pq : String × Int)
    (rest : List (String × Int)) (v : Int) (hq : ¬ pq.2 ≤ 0)
    (hv : dict_get inv pq.1 = some v) :
    checkStock inv (pq :: rest) =
      if v < pq.2 then some (.insufficientStock pq.1 v pq.2)
      else checkStock inv rest := by
  rw [checkStock, if_neg hq, hv]

lemma checkStock_none_of_ok (items : List (String × Int))
    (inv : List (String × Int))
    (h : ∀ pq ∈ items, 0 < pq.2 →
      ∃ v, dict_get inv pq.1 = some v ∧ pq.2 ≤ v) :
    checkStock inv items = none := by
  induction items with
  | nil => rfl
  | cons pq rest ih =>
    by_cases hq : pq.2 ≤ 0
    · rw [checkStock_cons_skip inv pq rest hq]
      exact ih (fun x hx => h x (List.mem_cons_of_mem _ hx))
    · obtain ⟨v, hv, hle⟩ := h pq (List.mem_cons_self _ _) (lt_of_not_le hq)
      rw [checkStock_cons_found inv pq rest v hq hv, if_neg (not_lt.mpr hle)]
      exact ih (fun x hx => h x (List.mem_cons_of_mem _ hx))

lemma checkStock_validation_first (pre : List (String × Int)) :
    ∀ (inv : List (String × Int)) (p : String) (q : Int)
      (rest : List (String × Int)),
      (∀ pq ∈ pre, 0 < pq.2 → ∃ v, dict_get inv pq.1 = some v ∧ pq.2 ≤ v) →
      0 < q → dict_get inv p = none →
      checkStock inv (pre ++ (p, q) :: rest) =
        some (.validation ("Producto no existe en inventario: " ++ p)) := by
  induction pre with
  | nil =>
    intro inv p q rest _ hq hget
    rw [List.nil_append]
    exact checkStock_cons_absent inv (p, q) rest (not_le.mpr hq) hget
  | cons pq pres ih =>
    intro inv p q rest hpre hq hget
    rw [List.cons_append]
    by_cases hq0 : pq.2 ≤ 0
    · rw [checkStock_cons_skip inv pq _ hq0]
      exact ih inv p q rest (fun x hx => hpre x (List.mem_cons_of_mem _ hx)) hq hget
    · obtain ⟨v, hv, hle⟩ := hpre pq (List.mem_cons_self _ _) (lt_of_not_le hq0)
      rw [checkStock_cons_found inv pq _ v hq0 hv, if_neg (not_lt.mpr hle)]
      exact ih inv p q rest (fun x hx => hpre x (List.mem_cons_of_mem _ hx)) hq hget

lemma checkStock_insufficient_first (pre : List (String × Int)) :
    ∀ (inv : List (String × Int)) (p : String) (q v : Int)
      (rest : List (String × Int)),
      (∀ pq ∈ pre, 0 < pq.2 → ∃ w, dict_get inv pq.1 = some w ∧ pq.2 ≤ w) →
      0 < q → dict_get inv p = some v → v < q →
      checkStock inv (pre ++ (p, q) :: rest) =
        some (.insufficientStock p v q) := by
  induction pre with
  | nil =>
    intro inv p q v rest _ hq hget hlt
    rw [List.nil_append,
      checkStock_cons_found inv (p, q) rest v (not_le.mpr hq) hget]
    exact if_pos hlt
  | cons pq pres ih =>
    intro inv p q v rest hpre hq hget hlt
    rw [List.cons_append]
    by_cases hq0 : pq.2 ≤ 0
    · rw [checkStock_cons_skip inv pq _ hq0]
      exact ih inv p q v rest (fun x hx => hpre x (List.mem_cons_of_mem _ hx)) hq hget hlt
    · obtain ⟨w, hw, hle⟩ := hpre pq (List.mem_cons_self _ _) (lt_of_not_le hq0)
      rw [checkStock_cons_found inv pq _ w hq0 hw, if_neg (not_lt.mpr hle)]
      exact ih inv p q v rest (fun x hx => hpre x (List.mem_cons_of_mem _ hx)) hq hget hlt

lemma checkStock_insufficient_exists (items : List (String × Int))
    (inv : List (String × Int))
    (hall : ∀ pq ∈ items, 0 < pq.2 → (dict_get inv pq.1).isSome)
    (hbad : ∃ pq ∈ items, 0 < pq.2 ∧
      ∃ v, dict_get inv pq.1 = some v ∧ v < pq.2) :
    ∃ p avail req, avail < req ∧
      checkStock inv items = some (.insufficientStock p avail req) := by
  induction items with
  | nil => obtain ⟨pq, hm, _⟩ := hbad; cases hm
  | cons pq rest ih =>
    by_cases hq : pq.2 ≤ 0
    · rw [checkStock_cons_skip inv pq rest hq]
      obtain ⟨x, hx, hx0, v, hxv, hxlt⟩ := hbad
      rcases List.mem_cons.mp hx with heq | hmem
      · rw [heq] at hx0; omega
      · exact ih (fun y hy => hall y (List.mem_cons_of_mem _ hy))
          ⟨x, hmem, hx0, v, hxv, hxlt⟩
    · have hsome := hall pq (List.mem_cons_self _ _) (lt_of_not_le hq)
      obtain ⟨v, hv⟩ := Option.isSome_iff_exists.mp hsome
      rw [checkStock_cons_found inv pq rest v hq hv]
      by_cases hlt : v < pq.2
      · exact ⟨pq.1, v, pq.2, hlt, if_pos hlt⟩
      · rw [if_neg hlt]
        obtain ⟨x, hx, hx0, w, hxw, hxlt⟩ := hbad
        rcases List.mem_cons.mp hx with heq | hmem
        · rw [heq] at hxw hxlt
          rw [hv] at hxw
          have hwv : w = v := (Option.some.inj hxw).symm
          rw [hwv] at hxlt
          rw [heq] at hx0
          omega
        · exact ih (fun y hy => hall y (List.mem_cons_of_mem _ hy))
            ⟨x, hmem, hx0, w, hxw, hxlt⟩

/-! ### Unfolding lemmas for `create_order` and `mark_order_delivered` -/

lemma create_order_notFound (s : AppState) (fecha : String) (cid : Nat)
    (items : List (String × Int)) (dom : Bool)
    (h : s.clientes.find? (fun c => c.id == cid) = none) :
    create_order s fecha cid items dom =
      (.error (.notFound "ID cliente no encontrado"), s) := by
  unfold create_order
  rw [h]

lemma create_order_checkStock_error (s : AppState) (fecha : String) (cid : Nat)
    (items : List (String × Int)) (dom : Bool) (c : Cliente) (e : AppError)
    (hf : s.clientes.find? (fun x => x.id == cid) = some c)
    (hc : checkStock s.inventario items = some e) :
    create_order s fecha cid items dom = (.error e, s) := by
  unfold create_order
  rw [hf, hc]

lemma create_order_success_eq (s : AppState) (fecha : String) (cid : Nat)
    (items : List (String × Int)) (dom : Bool) (c : Cliente)
    (hf : s.clientes.find? (fun x => x.id == cid) = some c)
    (hc : checkStock s.inventario items = none) :
    create_order s fecha cid items dom =
      (.ok (next_id_for_sheet (s.pedidos.map Pedido.id)),
       { clientes := s.clientes,
         pedidos := s.pedidos ++
           [(⟨next_id_for_sheet (s.pedidos.map Pedido.id), fecha, cid, c.nombre,
             String.intercalate " | " (detalle_of items), subtotal_of items,
             (if dom then DOMICILIO_COST else 0),
             subtotal_of items + (if dom then DOMICILIO_COST else 0),
             "Pendiente", "", 0, subtotal_of items⟩ : Pedido)],
         inventario := update_inventory_after_order s.inventario items,
         flujo := s.flujo,
         gastos := s.gastos }) := by
  unfold create_order
  rw [hf, hc]

lemma create_order_ok_inv (s : AppState) (fecha : String) (cid : Nat)
    (items : List (String × Int)) (dom : Bool) (pid : Nat)
    (h : (create_order s fecha cid items dom).1 = .ok pid) :
    ∃ c, s.clientes.find? (fun x => x.id == cid) = some c ∧
      checkStock s.inventario items = none ∧
      pid = next_id_for_sheet (s.pedidos.map Pedido.id) ∧
      create_order s fecha cid items dom =
        (.ok pid,
         { clientes := s.clientes,
           pedidos := s.pedidos ++
             [(⟨pid, fecha, cid, c.nombre,
               String.intercalate " | " (detalle_of items), subtotal_of items,
               (if dom then DOMICILIO_COST else 0),
               subtotal_of items + (if dom then DOMICILIO_COST else 0),
               "Pendiente", "", 0, subtotal_of items⟩ : Pedido)],
           inventario := update_inventory_after_order s.inventario items,
           flujo := s.flujo,
           gastos := s.gastos }) := by
  cases hf : s.clientes.find? (fun x => x.id == cid) with
  | none =>
    rw [create_order_notFound s fecha cid items dom hf] at h
    cases h
  | some c =>
    cases hc : checkStock s.inventario items with
    | some e =>
      rw [create_order_checkStock_error s fecha cid items dom c e hf hc] at h
      cases h
    | none =>
      have heq := create_order_success_eq s fecha cid items dom c hf hc
      rw [heq] at h
      have hpid : next_id_for_sheet (s.pedidos.map Pedido.id) = pid :=
        Except.ok.inj h
      refine ⟨c, rfl, rfl, hpid.symm, ?_⟩
      rw [heq, hpid]

lemma mark_order_delivered_found (s : AppState) (fecha : String) (oid : Nat)
    (mp : String) (A : Int) (row : Pedido)
    (hf : s.pedidos.find? (fun r => r.id == oid) = some row) :
    mark_order_delivered s fecha oid mp A =
      (.ok (min A row.subtotal,
            min (max 0 (A - min A row.subtotal)) row.domicilioMonto,
            (row.subtotal - min A row.subtotal) +
              (row.domicilioMonto -
                min (max 0 (A - min A row.subtotal)) row.domicilioMonto)),
       { clientes := s.clientes,
         pedidos := update_pedido_delivered s.pedidos oid mp A
           ((row.subtotal - min A row.subtotal) +
             (row.domicilioMonto -
               min (max 0 (A - min A row.subtotal)) row.domicilioMonto)),
         inventario := s.inventario,
         flujo := s.flujo ++
           [(⟨fecha, oid, row.nombreCliente, mp, min A row.subtotal,
             min (max 0 (A - min A row.subtotal)) row.domicilioMonto,
             (row.subtotal - min A row.subtotal) +
               (row.domicilioMonto -
                 min (max 0 (A - min A row.subtotal)) row.domicilioMonto)⟩ :
             FlujoEntry)],
         gastos := s.gastos }) := by
  unfold mark_order_delivered
  rw [hf]

/-! ### Lemmas about numeric helpers -/

lemma foldr_max_mem (l : List Nat) (h : l ≠ []) : l.foldr max 0 ∈ l := by
  induction l with
  | nil => exact absurd rfl h
  | cons a t ih =>
    cases t with
    | nil => simp
    | cons b t2 =>
      rw [List.foldr_cons]
      rcases le_or_lt ((b :: t2).foldr max 0) a with hle | hlt
      · rw [max_eq_left hle]; exact List.mem_cons_self _ _
      · rw [max_eq_right (le_of_lt hlt)]
        exact List.mem_cons_of_mem _ (ih (by simp))

lemma le_foldr_max (l : List Nat) : ∀ x ∈ l, x ≤ l.foldr max 0 := by
  induction l with
  | nil => intro x hx; cases hx
  | cons a t ih =>
    intro x hx
    rw [List.foldr_cons]
    rcases List.mem_cons.mp hx with heq | hmem
    · rw [heq]; exact le_max_left _ _
    · exact le_trans (ih x hmem) (le_max_right _ _)

lemma dict_get_getD_nonneg (l : List (String × Int))
    (h : ∀ kv ∈ l, 0 ≤ kv.2) (p : String) : 0 ≤ (dict_get l p).getD 0 := by
  induction l with
  | nil => simp [dict_get]
  | cons kv rest ih =>
    rw [dict_get]
    by_cases hk : kv.1 = p
    · rw [if_pos hk]
      exact h kv (List.mem_cons_self _ _)
    · rw [if_neg hk]
      exact ih (fun x hx => h x (List.mem_cons_of_mem _ hx))

lemma precioOf_nonneg (p : String) : 0 ≤ precioOf p :=
  dict_get_getD_nonneg PRODUCTOS (by decide) p

lemma subtotal_of_eq_sum (items : List (String × Int)) :
    subtotal_of items = (items.map (fun pq => precioOf pq.1 * pq.2)).sum := by
  induction items with
  | nil => rfl
  | cons pq rest ih => rw [subtotal_of, ih, List.map_cons, List.sum_cons]

lemma subtotal_of_nonneg (items : List (String × Int))
    (h : ∀ pq ∈ items, 0 ≤ pq.2) : 0 ≤ subtotal_of items := by
  induction items with
  | nil => exact le_refl 0
  | cons pq rest ih =>
    rw [subtotal_of]
    have h1 : 0 ≤ precioOf pq.1 * pq.2 :=
      mul_nonneg (precioOf_nonneg pq.1) (h pq (List.mem_cons_self _ _))
    have h2 : 0 ≤ subtotal_of rest :=
      ih (fun x hx => h x (List.mem_cons_of_mem _ hx))
    exact add_nonneg h1 h2

lemma detalle_of_eq_filter_map (items : List (String × Int)) :
    detalle_of items =
      (items.filter (fun pq => decide (0 < pq.2))).map
        (fun pq => detalle_item pq.1 pq.2) := by
  induction items with
  | nil => rfl
  | cons pq rest ih =>
    rw [detalle_of, ih, List.filter_cons]
    by_cases hq : 0 < pq.2
    · simp [hq]
    · simp [hq]

/-! ### Aggregation lemmas (Flujo & Gastos block) -/

lemma total_prod_efectivo_cons (e : FlujoEntry) (rest : List FlujoEntry) :
    total_prod_efectivo (e :: rest) =
      (if e.medioPago = "Efectivo" then e.productosRecibido else 0) +
        total_prod_efectivo rest := by
  unfold total_prod_efectivo
  rw [List.filter_cons]
  by_cases h : e.medioPago = "Efectivo"
  · simp [h]
  · simp [h]

lemma total_prod_transfer_cons (e : FlujoEntry) (rest : List FlujoEntry) :
    total_prod_transfer (e :: rest) =
      (if e.medioPago = "Transferencia" then e.productosRecibido else 0) +
        total_prod_transfer rest := by
  unfold total_prod_transfer
  rw [List.filter_cons]
  by_cases h : e.medioPago = "Transferencia"
  · simp [h]
  · simp [h]

lemma total_prod_other_cons (e : FlujoEntry) (rest : List FlujoEntry) :
    total_prod_other (e :: rest) =
      (if e.medioPago ≠ "Efectivo" ∧ e.medioPago ≠ "Transferencia"
       then e.productosRecibido else 0) +
        total_prod_other rest := by
  unfold total_prod_other
  rw [List.filter_cons]
  by_cases h1 : e.medioPago = "Efectivo"
  · simp [h1]
  · by_cases h2 : e.medioPago = "Transferencia"
    · simp [h1, h2]
    · simp [h1, h2]

lemma total_prod_eq_sum (flujo : List FlujoEntry) :
    total_prod flujo = (flujo.map FlujoEntry.productosRecibido).sum := by
  induction flujo with
  | nil => rfl
  | cons e rest ih =>
    unfold total_prod at ih ⊢
    rw [total_prod_efectivo_cons, total_prod_transfer_cons, total_prod_other_cons,
      List.map_cons, List.sum_cons, ← ih]
    by_cases h1 : e.medioPago = "Efectivo"
    · rw [if_pos h1, if_neg (by rw [h1]; decide), if_neg (fun hc => hc.1 h1)]
      ring
    · by_cases h2 : e.medioPago = "Transferencia"
      · rw [if_neg h1, if_pos h2, if_neg (fun hc => hc.2 h2)]
        ring
      · rw [if_neg h1, if_neg h2, if_pos ⟨h1, h2⟩]
        ring

lemma map_productosRecibido_of_pairs (f g : List FlujoEntry)
    (h : f.map (fun e => (e.medioPago, e.productosRecibido)) =
         g.map (fun e => (e.medioPago, e.productosRecibido))) :
    f.map FlujoEntry.productosRecibido = g.map FlujoEntry.productosRecibido := by
  have hf := congrArg (List.map Prod.snd) h
  rw [List.map_map, List.map_map] at hf
  exact hf

/-! ### Concrete sample states used by the witness theorems -/

/-- An order row with subtotal 20000 and delivery fee 3000, the spec's
worked example. -/
def sampleOrderRow : Pedido :=
  ⟨1, "2025-01-01", 1, "Ana", "Arandanos_500g x1 (@20000)",
   20000, 3000, 23000, "Pendiente", "", 0, 20000⟩

def sampleSettleState : AppState :=
  { clientes := [⟨1, "Ana", "300", "Calle 1"⟩],
    pedidos := [sampleOrderRow],
    inventario := [("Arandanos_125g", 5), ("Arandanos_250g", 5)],
    flujo := [], gastos := [] }

def emptyState : AppState :=
  { clientes := [], pedidos := [], inventario := [], flujo := [], gastos := [] }

/-- One registered customer, two stocked products, no orders yet. -/
def baseState : AppState :=
  { clientes := [⟨1, "Ana", "300", "Calle 1"⟩],
    pedidos := [],
    inventario := [("Arandanos_125g", 5), ("Arandanos_250g", 5)],
    flujo := [], gastos := [] }

def wFlujoA : List FlujoEntry :=
  [⟨"2025-01-01", 1, "Ana", "Efectivo", 20000, 3000, 0⟩,
   ⟨"2025-01-02", 2, "Ana", "Pago parcial", 5000, 0, 0⟩]

def wFlujoB : List FlujoEntry :=
  [⟨"2025-01-01", 1, "Ana", "Efectivo", 20000, 999999, 0⟩,
   ⟨"2025-01-02", 2, "Ana", "Pago parcial", 5000, 123, 0⟩]

def wGastos : List Gasto := [⟨"2025-01-03", "Cajas", 10000⟩]

/-! ### Claim theorems -/

/-- C1: `mark_order_delivered` allocates a payment `A ≥ 0` exactly as
`product_amount_applied = min(A, S)`, `remainder = max(0, A - product_amount_applied)`,
`delivery_amount_applied = min(remainder, F)`,
`remaining_balance = (S - product_amount_applied) + (F - delivery_amount_applied)`;
the balance is never negative, any overpayment `A ≥ S + F` (with `F ≥ 0`)
yields balance `0` with no error, and the concrete spec example
`S=20000, F=3000, A=23000` yields `(20000, 3000, 0)`. -/
theorem payment_allocation_formulas :
    (∀ (s : AppState) (fecha : String) (oid : Nat) (mp : String) (A : Int)
       (row : Pedido),
       s.pedidos.find? (fun r => r.id == oid) = some row → 0 ≤ A →
       ∃ pp dp st s2,
         mark_order_delivered s fecha oid mp A = (.ok (pp, dp, st), s2) ∧
         pp = min A row.subtotal ∧
         dp = min (max 0 (A - pp)) row.domicilioMonto ∧
         st = (row.subtotal - pp) + (row.domicilioMonto - dp) ∧
         0 ≤ st ∧
         (0 ≤ row.domicilioMonto → row.subtotal + row.domicilioMonto ≤ A →
           st = 0))
    ∧ (mark_order_delivered sampleSettleState "2025-01-02" 1 "Efectivo" 23000).1 =
        .ok (20000, 3000, 0)
    ∧ (mark_order_delivered sampleSettleState "2025-01-02" 1 "Efectivo" 30000).1 =
        .ok (20000, 3000, 0) := by
  refine ⟨?_, rfl, rfl⟩
  intro s fecha oid mp A row hf hA
  refine ⟨_, _, _, _,
    by rw [mark_order_delivered_found s fecha oid mp A row hf],
    rfl, rfl, rfl, ?_, ?_⟩
  · have h1 : min A row.subtotal ≤ row.subtotal := min_le_right _ _
    have h2 : min (max 0 (A - min A row.subtotal)) row.domicilioMonto ≤
        row.domicilioMonto := min_le_right _ _
    omega
  · intro hF hover
    have hSA : row.subtotal ≤ A := by omega
    rw [min_eq_right hSA]
    rw [max_eq_right (by omega : (0:Int) ≤ A - row.subtotal)]
    rw [min_eq_right (by omega : row.domicilioMonto ≤ A - row.subtotal)]
    ring

theorem payment_allocation_formulas_witness :
    (0:Int) ≤ 30000 ∧
    ∃ pp dp st s2,
      mark_order_delivered sampleSettleState "2025-01-03" 1 "Transferencia" 30000 =
        (.ok (pp, dp, st), s2) ∧
      pp = min 30000 sampleOrderRow.subtotal ∧
      dp = min (max 0 (30000 - pp)) sampleOrderRow.domicilioMonto ∧
      st = (sampleOrderRow.subtotal - pp) +
        (sampleOrderRow.domicilioMonto - dp) ∧
      0 ≤ st ∧
      (0 ≤ sampleOrderRow.domicilioMonto →
        sampleOrderRow.subtotal + sampleOrderRow.domicilioMonto ≤ 30000 →
        st = 0) :=
  ⟨by decide, payment_allocation_formulas.1 sampleSettleState "2025-01-03" 1
    "Transferencia" 30000 sampleOrderRow rfl (by decide)⟩

/-- C2: `create_order` validates everything before writing anything: whenever
it returns an error, the state (in particular the `Pedidos` and `Inventario`
tables) is exactly the input state. -/
theorem create_order_all_or_nothing (s : AppState) (fecha : String) (cid : Nat)
    (items : List (String × Int)) (dom : Bool) (e : AppError)
    (h : (create_order s fecha cid items dom).1 = .error e) :
    (create_order s fecha cid items dom).2 = s ∧
    (create_order s fecha cid items dom).2.pedidos = s.pedidos ∧
    (create_order s fecha cid items dom).2.inventario = s.inventario := by
  cases hf : s.clientes.find? (fun x => x.id == cid) with
  | none =>
    rw [create_order_notFound s fecha cid items dom hf]
    exact ⟨rfl, rfl, rfl⟩
  | some c =>
    cases hc : checkStock s.inventario items with
    | some e2 =>
      rw [create_order_checkStock_error s fecha cid items dom c e2 hf hc]
      exact ⟨rfl, rfl, rfl⟩
    | none =>
      rw [create_order_success_eq s fecha cid items dom c hf hc] at h
      cases h

theorem create_order_all_or_nothing_witness :
    (create_order emptyState "2025-01-01" 1 [("Arandanos_125g", 1)] false).1 =
      .error (.notFound "ID cliente no encontrado") ∧
    ((create_order emptyState "2025-01-01" 1 [("Arandanos_125g", 1)] false).2 =
        emptyState ∧
     (create_order emptyState "2025-01-01" 1 [("Arandanos_125g", 1)] false).2.pedidos =
        emptyState.pedidos ∧
     (create_order emptyState "2025-01-01" 1 [("Arandanos_125g", 1)] false).2.inventario =
        emptyState.inventario) :=
  ⟨rfl, create_order_all_or_nothing emptyState "2025-01-01" 1
    [("Arandanos_125g", 1)] false (.notFound "ID cliente no encontrado") rfl⟩

/-- C6: the reporting block sums product revenue as Efectivo + Transferencia +
the "other" bucket, which together cover every entry exactly once; delivery
revenue is summed separately; and `saldo_real` equals product revenue minus
expenses, unchanged under arbitrary changes to the delivery amounts. -/
theorem cashflow_aggregation_excludes_delivery :
    (∀ flujo : List FlujoEntry,
       total_prod flujo =
         total_prod_efectivo flujo + total_prod_transfer flujo +
           total_prod_other flujo ∧
       total_prod flujo = (flujo.map FlujoEntry.productosRecibido).sum)
    ∧ (∀ flujo : List FlujoEntry,
         total_domicilios flujo = (flujo.map FlujoEntry.domicilioRecibido).sum)
    ∧ (∀ (flujo : List FlujoEntry) (gastos : List Gasto),
         saldo_real flujo gastos = total_prod flujo - total_gastos gastos)
    ∧ (∀ (f g : List FlujoEntry) (gastos : List Gasto),
         f.map (fun e => (e.medioPago, e.productosRecibido)) =
           g.map (fun e => (e.medioPago, e.productosRecibido)) →
         total_prod f = total_prod g ∧
           saldo_real f gastos = saldo_real g gastos) := by
  refine ⟨fun flujo => ⟨rfl, total_prod_eq_sum flujo⟩, fun flujo => rfl,
    fun flujo gastos => rfl, ?_⟩
  intro f g gastos h
  have ht : total_prod f = total_prod g := by
    rw [total_prod_eq_sum, total_prod_eq_sum,
      map_productosRecibido_of_pairs f g h]
  exact ⟨ht, by unfold saldo_real; rw [ht]⟩

theorem cashflow_aggregation_excludes_delivery_witness :
    (wFlujoA.map (fun e => (e.medioPago, e.productosRecibido)) =
      wFlujoB.map (fun e => (e.medioPago, e.productosRecibido))) ∧
    (total_prod wFlujoA = total_prod wFlujoB ∧
      saldo_real wFlujoA wGastos = saldo_real wFlujoB wGastos) :=
  ⟨rfl, cashflow_aggregation_excludes_delivery.2.2.2 wFlujoA wFlujoB wGastos rfl⟩

/-- C3: inventory mutations keep every stock non-negative; a successful
`create_order` leaves each ordered product (with distinct keys) at
`previous_stock - quantity` whenever `quantity ≤ previous_stock`; and a
validly-addressed order requesting more than the available stock fails with
`insufficientStock` and leaves the state (hence every stock) unchanged. -/
theorem inventory_stock_safety :
    (∀ (inv items : List (String × Int)), (∀ pv ∈ inv, 0 ≤ pv.2) →
       ∀ pv ∈ update_inventory_after_order inv items, 0 ≤ pv.2)
    ∧ (∀ (inv : List (String × Int)) (prod : String) (nueva : Int),
         0 ≤ nueva → (∀ pv ∈ inv, 0 ≤ pv.2) →
         ∀ pv ∈ replenish_stock inv prod nueva, 0 ≤ pv.2)
    ∧ (∀ (s : AppState) (fecha : String) (cid : Nat)
         (items : List (String × Int)) (dom : Bool) (pid : Nat)
         (p : String) (q v : Int),
         (create_order s fecha cid items dom).1 = .ok pid →
         (items.map Prod.fst).Nodup → (p, q) ∈ items →
         dict_get s.inventario p = some v → q ≤ v →
         dict_get (create_order s fecha cid items dom).2.inventario p =
           some (v - q))
    ∧ (∀ (s : AppState) (fecha : String) (cid : Nat)
         (items : List (String × Int)) (dom : Bool) (c : Cliente),
         s.clientes.find? (fun x => x.id == cid) = some c →
         (∀ pq ∈ items, 0 < pq.2 → (dict_get s.inventario pq.1).isSome) →
         (∃ pq ∈ items, 0 < pq.2 ∧
           ∃ v, dict_get s.inventario pq.1 = some v ∧ v < pq.2) →
         ∃ p avail req, avail < req ∧
           create_order s fecha cid items dom =
             (.error (.insufficientStock p avail req), s)) := by
  refine ⟨fun inv items h => update_inventory_nonneg items inv h,
    fun inv prod nueva hn h => replenish_stock_nonneg inv prod nueva hn h,
    ?_, ?_⟩
  · intro s fecha cid items dom pid p q v hok hnd hm hget hle
    obtain ⟨c, hf, hc, hpid, heq⟩ := create_order_ok_inv s fecha cid items dom pid hok
    rw [heq]
    show dict_get (update_inventory_after_order s.inventario items) p = some (v - q)
    rw [dict_get_update_inv_mem items s.inventario p q v hnd hm hget]
    congr 1
    omega
  · intro s fecha cid items dom c hf hall hbad
    obtain ⟨p, avail, req, hlt, hcs⟩ :=
      checkStock_insufficient_exists items s.inventario hall hbad
    exact ⟨p, avail, req, hlt,
      create_order_checkStock_error s fecha cid items dom c _ hf hcs⟩

theorem inventory_stock_safety_witness :
    ((∀ pv ∈ ([("Arandanos_125g", 5)] : List (String × Int)), 0 ≤ pv.2) ∧
     (∀ pv ∈ update_inventory_after_order [("Arandanos_125g", 5)]
        [("Arandanos_125g", 2)], 0 ≤ pv.2)) ∧
    (∀ pv ∈ replenish_stock [("Arandanos_125g", 5)] "Arandanos_125g" 3,
      0 ≤ pv.2) ∧
    dict_get
      (create_order baseState "2025-01-01" 1 [("Arandanos_125g", 2)] false).2.inventario
      "Arandanos_125g" = some (5 - 2) ∧
    (∃ p avail req, avail < req ∧
      create_order baseState "2025-01-01" 1 [("Arandanos_125g", 9)] false =
        (.error (.insufficientStock p avail req), baseState)) :=
  ⟨⟨by decide, inventory_stock_safety.1 [("Arandanos_125g", 5)]
      [("Arandanos_125g", 2)] (by decide)⟩,
   inventory_stock_safety.2.1 [("Arandanos_125g", 5)] "Arandanos_125g" 3
     (by decide) (by decide),
   inventory_stock_safety.2.2.1 baseState "2025-01-01" 1 [("Arandanos_125g", 2)]
     false 1 "Arandanos_125g" 2 5 rfl (by decide) (by decide) rfl (by decide),
   inventory_stock_safety.2.2.2 baseState "2025-01-01" 1 [("Arandanos_125g", 9)]
     false ⟨1, "Ana", "300", "Calle 1"⟩ rfl (by decide)
     ⟨("Arandanos_125g", 9), by decide, by decide, 5, rfl, by decide⟩⟩

/-- C4: `create_order` fails with exactly the stated error kinds: an absent
customer gives the not-found error; scanning the items in order (items with
`q ≤ 0` or passing both checks are skipped over), a positive-quantity item
absent from the inventory gives the validation error naming the product, one
present but with stock below the quantity gives `insufficientStock` carrying
available and requested; when the customer exists and every positive item is
present with enough stock, the order succeeds. -/
theorem create_order_error_kinds :
    (∀ (s : AppState) (fecha : String) (cid : Nat)
       (items : List (String × Int)) (dom : Bool),
       s.clientes.find? (fun c => c.id == cid) = none →
       create_order s fecha cid items dom =
         (.error (.notFound "ID cliente no encontrado"), s))
    ∧ (∀ (s : AppState) (fecha : String) (cid : Nat) (dom : Bool) (c : Cliente)
         (pre : List (String × Int)) (p : String) (q : Int)
         (rest : List (String × Int)),
         s.clientes.find? (fun x => x.id == cid) = some c →
         (∀ pq ∈ pre, 0 < pq.2 →
           ∃ v, dict_get s.inventario pq.1 = some v ∧ pq.2 ≤ v) →
         0 < q → dict_get s.inventario p = none →
         create_order s fecha cid (pre ++ (p, q) :: rest) dom =
           (.error (.validation ("Producto no existe en inventario: " ++ p)), s))
    ∧ (∀ (s : AppState) (fecha : String) (cid : Nat) (dom : Bool) (c : Cliente)
         (pre : List (String × Int)) (p : String) (q v : Int)
         (rest : List (String × Int)),
         s.clientes.find? (fun x => x.id == cid) = some c →
         (∀ pq ∈ pre, 0 < pq.2 →
           ∃ w, dict_get s.inventario pq.1 = some w ∧ pq.2 ≤ w) →
         0 < q → dict_get s.inventario p = some v → v < q →
         create_order s fecha cid (pre ++ (p, q) :: rest) dom =
           (.error (.insufficientStock p v q), s))
    ∧ (∀ (s : AppState) (fecha : String) (cid : Nat)
         (items : List (String × Int)) (dom : Bool) (c : Cliente),
         s.clientes.find? (fun x => x.id == cid) = some c →
         (∀ pq ∈ items, 0 < pq.2 →
           ∃ v, dict_get s.inventario pq.1 = some v ∧ pq.2 ≤ v) →
         (create_order s fecha cid items dom).1 =
           .ok (next_id_for_sheet (s.pedidos.map Pedido.id))) := by
  refine ⟨fun s fecha cid items dom h =>
    create_order_notFound s fecha cid items dom h, ?_, ?_, ?_⟩
  · intro s fecha cid dom c pre p q rest hf hpre hq hget
    exact create_order_checkStock_error s fecha cid _ dom c _ hf
      (checkStock_validation_first pre s.inventario p q rest hpre hq hget)
  · intro s fecha cid dom c pre p q v rest hf hpre hq hget hlt
    exact create_order_checkStock_error s fecha cid _ dom c _ hf
      (checkStock_insufficient_first pre s.inventario p q v rest hpre hq hget hlt)
  · intro s fecha cid items dom c hf hok
    rw [create_order_success_eq s fecha cid items dom c hf
      (checkStock_none_of_ok items s.inventario hok)]

theorem create_order_error_kinds_witness :
    create_order emptyState "2025-01-01" 1 [("Arandanos_125g", 1)] false =
      (.error (.notFound "ID cliente no encontrado"), emptyState) ∧
    create_order baseState "2025-01-01" 1 [("Nada", 1)] false =
      (.error (.validation ("Producto no existe en inventario: " ++ "Nada")),
       baseState) ∧
    create_order baseState "2025-01-01" 1 [("Arandanos_125g", 9)] false =
      (.error (.insufficientStock "Arandanos_125g" 5 9), baseState) ∧
    (create_order baseState "2025-01-01" 1 [("Arandanos_125g", 2)] false).1 =
      .ok (next_id_for_sheet (baseState.pedidos.map Pedido.id)) :=
  ⟨create_order_error_kinds.1 emptyState "2025-01-01" 1 [("Arandanos_125g", 1)]
     false rfl,
   create_order_error_kinds.2.1 baseState "2025-01-01" 1 false
     ⟨1, "Ana", "300", "Calle 1"⟩ [] "Nada" 1 [] rfl
     (fun x hx => absurd hx (List.not_mem_nil x)) (by decide) rfl,
   create_order_error_kinds.2.2.1 baseState "2025-01-01" 1 false
     ⟨1, "Ana", "300", "Calle 1"⟩ [] "Arandanos_125g" 9 5 [] rfl
     (fun x hx => absurd hx (List.not_mem_nil x)) (by decide) rfl (by decide),
   create_order_error_kinds.2.2.2 baseState "2025-01-01" 1
     [("Arandanos_125g", 2)] false ⟨1, "Ana", "300", "Calle 1"⟩ rfl
     (fun pq hpq h0 => by
       rw [List.mem_singleton] at hpq
       rw [hpq]
       exact ⟨5, rfl, by decide⟩)⟩

/-- C5: every successful `create_order` appends one order row whose subtotal
is the sum of catalog price times quantity over the line items (price 0 for a
product outside the catalog), whose delivery fee is the fixed constant exactly
when requested, with `total = subtotal + fee`, status `Pendiente`, zero amount
paid, and initial outstanding balance equal to the subtotal. -/
theorem create_order_financial_fields (s : AppState) (fecha : String)
    (cid : Nat) (items : List (String × Int)) (dom : Bool) (pid : Nat)
    (h : (create_order s fecha cid items dom).1 = .ok pid) :
    ∃ row : Pedido,
      (create_order s fecha cid items dom).2.pedidos = s.pedidos ++ [row] ∧
      row.subtotal = (items.map (fun pq => precioOf pq.1 * pq.2)).sum ∧
      (∀ p, dict_get PRODUCTOS p = none → precioOf p = 0) ∧
      row.domicilioMonto = (if dom then DOMICILIO_COST else 0) ∧
      row.totalPedido = row.subtotal + row.domicilioMonto ∧
      row.estado = "Pendiente" ∧
      row.montoPagado = 0 ∧
      row.saldoPendiente = row.subtotal := by
  obtain ⟨c, hf, hc, hpid, heq⟩ := create_order_ok_inv s fecha cid items dom pid h
  rw [heq]
  refine ⟨_, rfl, subtotal_of_eq_sum items, ?_, rfl, rfl, rfl, rfl, rfl⟩
  intro p hp
  unfold precioOf
  rw [hp]
  rfl

theorem create_order_financial_fields_witness :
    (create_order baseState "2025-01-01" 1 [("Arandanos_125g", 2)] true).1 =
      .ok 1 ∧
    ∃ row : Pedido,
      (create_order baseState "2025-01-01" 1 [("Arandanos_125g", 2)] true).2.pedidos =
        baseState.pedidos ++ [row] ∧
      row.subtotal =
        (([("Arandanos_125g", 2)] : List (String × Int)).map
          (fun pq => precioOf pq.1 * pq.2)).sum ∧
      (∀ p, dict_get PRODUCTOS p = none → precioOf p = 0) ∧
      row.domicilioMonto = (if true then DOMICILIO_COST else 0) ∧
      row.totalPedido = row.subtotal + row.domicilioMonto ∧
      row.estado = "Pendiente" ∧
      row.montoPagado = 0 ∧
      row.saldoPendiente = row.subtotal :=
  ⟨rfl, create_order_financial_fields baseState "2025-01-01" 1
    [("Arandanos_125g", 2)] true 1 rfl⟩

/-! ### Lemmas about `next_id_for_sheet` -/

lemma next_id_gt (ids : List Nat) : ∀ x ∈ ids, x < next_id_for_sheet ids := by
  intro x hx
  unfold next_id_for_sheet
  cases ids with
  | nil => cases hx
  | cons a t =>
    rw [if_neg (by simp)]
    have := le_foldr_max (a :: t) x hx
    omega

lemma next_id_eq_max_succ (ids : List Nat) (h : ids ≠ []) :
    ∃ m ∈ ids, next_id_for_sheet ids = m + 1 := by
  unfold next_id_for_sheet
  cases ids with
  | nil => exact absurd rfl h
  | cons a t =>
    rw [if_neg (by simp)]
    exact ⟨(a :: t).foldr max 0, foldr_max_mem _ (by simp), rfl⟩

/-- C7: registering a customer with an empty name is rejected with the
validation error and no row appended; with a nonempty name exactly one row is
appended carrying a freshly allocated id — strictly above every existing id,
`1` on an empty registry and `max + 1` on a nonempty one — and that id is
returned. -/
theorem register_customer_contract :
    (∀ (s : AppState) (t d : String),
       form_add_cliente s "" t d = (.error (.validation "Nombre requerido"), s))
    ∧ (∀ (s : AppState) (n t d : String), n ≠ "" →
         ∃ cid, form_add_cliente s n t d =
             (.ok cid,
              { s with clientes := s.clientes ++ [⟨cid, n, t, d⟩] }) ∧
           (∀ c ∈ s.clientes, c.id < cid) ∧
           (s.clientes = [] → cid = 1) ∧
           (s.clientes ≠ [] → ∃ c ∈ s.clientes, cid = c.id + 1)) := by
  constructor
  · intro s t d
    unfold form_add_cliente
    rw [if_pos rfl]
  · intro s n t d hn
    refine ⟨next_id_for_sheet (s.clientes.map Cliente.id), ?_, ?_, ?_, ?_⟩
    · unfold form_add_cliente
      rw [if_neg hn]
      rfl
    · intro c hc
      exact next_id_gt (s.clientes.map Cliente.id) c.id
        (List.mem_map.mpr ⟨c, hc, rfl⟩)
    · intro hemp
      rw [hemp]
      rfl
    · intro hne
      obtain ⟨m, hm, hid⟩ := next_id_eq_max_succ (s.clientes.map Cliente.id)
        (fun hnil => hne (List.map_eq_nil_iff.mp hnil))
      obtain ⟨c, hc, hcm⟩ := List.mem_map.mp hm
      exact ⟨c, hc, by rw [hid, hcm]⟩

theorem register_customer_contract_witness :
    form_add_cliente baseState "" "300" "Calle 1" =
      (.error (.validation "Nombre requerido"), baseState) ∧
    (("Luis" : String) ≠ "") ∧
    ∃ cid, form_add_cliente baseState "Luis" "301" "Calle 2" =
        (.ok cid,
         { baseState with clientes :=
            baseState.clientes ++ [⟨cid, "Luis", "301", "Calle 2"⟩] }) ∧
      (∀ c ∈ baseState.clientes, c.id < cid) ∧
      (baseState.clientes = [] → cid = 1) ∧
      (baseState.clientes ≠ [] → ∃ c ∈ baseState.clientes, cid = c.id + 1) :=
  ⟨register_customer_contract.1 baseState "300" "Calle 1", by decide,
   register_customer_contract.2 baseState "Luis" "301" "Calle 2" (by decide)⟩

/-- Spec-side rendering of the line-item detail in CATALOG iteration order
(this definition follows the words of the spec sentence under test, for
comparison with the code's input-order `detalle_of`): iterate `PRODUCTOS` and
keep the catalog products whose requested quantity is positive. -/
def detalle_catalog_order (items : List (String × Int)) : String :=
  String.intercalate " | "
    ((PRODUCTOS.filter (fun pr => decide (0 < (dict_get items pr.1).getD 0))).map
      (fun pr => detalle_item pr.1 ((dict_get items pr.1).getD 0)))

/-- The two requested products listed in the REVERSE of catalog order
(`Arandanos_125g` precedes `Arandanos_250g` in `PRODUCTOS`). -/
def itemsRev : List (String × Int) :=
  [("Arandanos_250g", 1), ("Arandanos_125g", 1)]

/-- C8 counterexample: `create_order` stores the line-item detail in the
iteration order of the INPUT mapping, not in catalog iteration order — on an
input listing the products in reverse catalog order the stored text differs
from the catalog-order rendering the claim prescribes. -/
theorem detalle_not_catalog_order :
    (create_order baseState "2025-01-01" 1 itemsRev false).2.pedidos.map
      Pedido.productosDetalle =
      ["Arandanos_250g x1 (@10000) | Arandanos_125g x1 (@5000)"] ∧
    detalle_catalog_order itemsRev =
      "Arandanos_125g x1 (@5000) | Arandanos_250g x1 (@10000)" ∧
    ("Arandanos_250g x1 (@10000) | Arandanos_125g x1 (@5000)" : String) ≠
      "Arandanos_125g x1 (@5000) | Arandanos_250g x1 (@10000)" :=
  ⟨rfl, rfl, by decide⟩

/-- C8 (amended): for every successful `create_order` the stored
human-readable detail is the `" | "`-join of `"<product> x<qty> (@<price>)"`
over exactly the items with quantity > 0, in the iteration order of the INPUT
mapping (which coincides with catalog order when the input enumerates the
products in catalog order, as the order form does). -/
theorem detalle_input_order (s : AppState) (fecha : String) (cid : Nat)
    (items : List (String × Int)) (dom : Bool) (pid : Nat)
    (h : (create_order s fecha cid items dom).1 = .ok pid) :
    ∃ row : Pedido,
      (create_order s fecha cid items dom).2.pedidos = s.pedidos ++ [row] ∧
      row.productosDetalle =
        String.intercalate " | "
          ((items.filter (fun pq => decide (0 < pq.2))).map
            (fun pq => detalle_item pq.1 pq.2)) := by
  obtain ⟨c, hf, hc, hpid, heq⟩ := create_order_ok_inv s fecha cid items dom pid h
  rw [heq]
  exact ⟨_, rfl, by rw [← detalle_of_eq_filter_map]⟩

theorem detalle_input_order_witness :
    (create_order baseState "2025-01-01" 1 itemsRev false).1 = .ok 1 ∧
    ∃ row : Pedido,
      (create_order baseState "2025-01-01" 1 itemsRev false).2.pedidos =
        baseState.pedidos ++ [row] ∧
      row.productosDetalle =
        String.intercalate " | "
          ((itemsRev.filter (fun pq => decide (0 < pq.2))).map
            (fun pq => detalle_item pq.1 pq.2)) :=
  ⟨rfl, detalle_input_order baseState "2025-01-01" 1 itemsRev false 1 rfl⟩

/-- C9 counterexample: an order with a negative quantity for a priced,
tracked product is accepted and produces an order row with NEGATIVE stored
outstanding balance, refuting non-negativity for arbitrary integer
quantities. -/
theorem negative_balance_counterexample :
    (create_order baseState "2025-01-01" 1 [("Arandanos_125g", -1)] false).1 =
      .ok 1 ∧
    ∃ row ∈ (create_order baseState "2025-01-01" 1
        [("Arandanos_125g", -1)] false).2.pedidos,
      row.saldoPendiente < 0 :=
  ⟨rfl, by decide⟩

/-- C9 (amended): restricted to non-negative quantities (the only ones the
order form can produce), the stored outstanding balance of a created order is
non-negative and at most subtotal + fee − amount paid; and for any settlement
with `A ≥ 0`, the resulting balance is non-negative and equals
subtotal + fee − (amounts applied). -/
theorem outstanding_balance_bounds :
    (∀ (s : AppState) (fecha : String) (cid : Nat)
       (items : List (String × Int)) (dom : Bool) (pid : Nat),
       (create_order s fecha cid items dom).1 = .ok pid →
       (∀ pq ∈ items, 0 ≤ pq.2) →
       ∃ row : Pedido,
         (create_order s fecha cid items dom).2.pedidos = s.pedidos ++ [row] ∧
         0 ≤ row.saldoPendiente ∧
         row.saldoPendiente ≤
           row.subtotal + row.domicilioMonto - row.montoPagado)
    ∧ (∀ (s : AppState) (fecha : String) (oid : Nat) (mp : String) (A : Int)
         (row : Pedido) (pp dp st : Int) (s2 : AppState),
         s.pedidos.find? (fun r => r.id == oid) = some row → 0 ≤ A →
         mark_order_delivered s fecha oid mp A = (.ok (pp, dp, st), s2) →
         0 ≤ st ∧ st = row.subtotal + row.domicilioMonto - (pp + dp)) := by
  constructor
  · intro s fecha cid items dom pid h hq
    obtain ⟨c, hf, hc, hpid, heq⟩ := create_order_ok_inv s fecha cid items dom pid h
    rw [heq]
    refine ⟨_, rfl, ?_, ?_⟩
    · exact subtotal_of_nonneg items hq
    · show subtotal_of items ≤
        subtotal_of items + (if dom then DOMICILIO_COST else 0) - 0
      have hfee : (0:Int) ≤ (if dom then DOMICILIO_COST else 0) := by
        by_cases hdom : dom
        · rw [if_pos hdom]; decide
        · rw [if_neg hdom]
      omega
  · intro s fecha oid mp A row pp dp st s2 hf hA heq2
    rw [mark_order_delivered_found s fecha oid mp A row hf] at heq2
    have h2 : (min A row.subtotal,
        min (max 0 (A - min A row.subtotal)) row.domicilioMonto,
        (row.subtotal - min A row.subtotal) +
          (row.domicilioMonto -
            min (max 0 (A - min A row.subtotal)) row.domicilioMonto)) =
        (pp, dp, st) := Except.ok.inj (congrArg Prod.fst heq2)
    have hpp : pp = min A row.subtotal := (congrArg (fun x => x.1) h2).symm
    have hdp : dp = min (max 0 (A - min A row.subtotal)) row.domicilioMonto :=
      (congrArg (fun x => x.2.1) h2).symm
    have hst : st = (row.subtotal - min A row.subtotal) +
        (row.domicilioMonto -
          min (max 0 (A - min A row.subtotal)) row.domicilioMonto) :=
      (congrArg (fun x => x.2.2) h2).symm
    have hm1 : min A row.subtotal ≤ row.subtotal := min_le_right _ _
    have hm2 : min (max 0 (A - min A row.subtotal)) row.domicilioMonto ≤
        row.domicilioMonto := min_le_right _ _
    constructor
    · omega
    · omega

theorem outstanding_balance_bounds_witness :
    ((create_order baseState "2025-01-01" 1 [("Arandanos_125g", 2)] false).1 =
        .ok 1 ∧
     (∀ pq ∈ ([("Arandanos_125g", 2)] : List (String × Int)), 0 ≤ pq.2) ∧
     ∃ row : Pedido,
       (create_order baseState "2025-01-01" 1
           [("Arandanos_125g", 2)] false).2.pedidos =
         baseState.pedidos ++ [row] ∧
       0 ≤ row.saldoPendiente ∧
       row.saldoPendiente ≤
         row.subtotal + row.domicilioMonto - row.montoPagado) ∧
    (0 ≤ (0:Int) ∧ (0:Int) =
      sampleOrderRow.subtotal + sampleOrderRow.domicilioMonto -
        (20000 + 3000)) :=
  ⟨⟨rfl, by decide,
    (outstanding_balance_bounds.1 baseState "2025-01-01" 1
      [("Arandanos_125g", 2)] false 1 rfl (by decide))⟩,
   outstanding_balance_bounds.2 sampleSettleState "2025-01-02" 1 "Efectivo"
     23000 sampleOrderRow 20000 3000 0
     (mark_order_delivered sampleSettleState "2025-01-02" 1 "Efectivo" 23000).2
     rfl (by decide) rfl⟩

/-- C10: a line item with negative quantity is exempt from both validation
checks, so `create_order` succeeds; the inventory update
`max 0 (current - quantity)` then INCREASES that product's stock by the
absolute quantity, and the stored subtotal (and initial outstanding balance)
is price × quantity, negative whenever the catalog price is positive. -/
theorem negative_quantity_behavior (s : AppState) (fecha : String) (cid : Nat)
    (p : String) (q v pr : Int) (c : Cliente)
    (hf : s.clientes.find? (fun x => x.id == cid) = some c)
    (hq : q < 0)
    (hpr : dict_get PRODUCTOS p = some pr)
    (hv : dict_get s.inventario p = some v) (hv0 : 0 ≤ v) :
    (create_order s fecha cid [(p, q)] false).1 =
      .ok (next_id_for_sheet (s.pedidos.map Pedido.id)) ∧
    dict_get (create_order s fecha cid [(p, q)] false).2.inventario p =
      some (v - q) ∧
    v < v - q ∧
    ∃ row : Pedido,
      (create_order s fecha cid [(p, q)] false).2.pedidos = s.pedidos ++ [row] ∧
      row.subtotal = pr * q ∧
      row.saldoPendiente = pr * q ∧
      (0 < pr → row.saldoPendiente < 0) := by
  have hc : checkStock s.inventario [(p, q)] = none := by
    rw [checkStock_cons_skip s.inventario (p, q) [] (le_of_lt hq)]
    rfl
  have heq := create_order_success_eq s fecha cid [(p, q)] false c hf hc
  rw [heq]
  have hsub : subtotal_of [(p, q)] = pr * q := by
    show precioOf p * q + subtotal_of [] = pr * q
    unfold precioOf
    rw [hpr]
    show pr * q + 0 = pr * q
    ring
  refine ⟨rfl, ?_, by omega, _, rfl, ?_, ?_, ?_⟩
  · show dict_get (update_inventory_after_order s.inventario [(p, q)]) p =
      some (v - q)
    rw [dict_get_update_inv_mem [(p, q)] s.inventario p q v (by simp)
      (List.mem_singleton.mpr rfl) hv]
    congr 1
    omega
  · exact hsub
  · exact hsub
  · intro hpr0
    show subtotal_of [(p, q)] < 0
    rw [hsub]
    exact mul_neg_of_pos_of_neg hpr0 hq

theorem negative_quantity_behavior_witness :
    ((-1 : Int) < 0) ∧
    ((create_order baseState "2025-01-01" 1 [("Arandanos_125g", -1)] false).1 =
        .ok (next_id_for_sheet (baseState.pedidos.map Pedido.id)) ∧
     dict_get (create_order baseState "2025-01-01" 1
         [("Arandanos_125g", -1)] false).2.inventario "Arandanos_125g" =
       some (5 - (-1)) ∧
     (5:Int) < 5 - (-1) ∧
     ∃ row : Pedido,
       (create_order baseState "2025-01-01" 1
           [("Arandanos_125g", -1)] false).2.pedidos =
         baseState.pedidos ++ [row] ∧
       row.subtotal = 5000 * (-1) ∧
       row.saldoPendiente = 5000 * (-1) ∧
       ((0:Int) < 5000 → row.saldoPendiente < 0)) :=
  ⟨by decide, negative_quantity_behavior baseState "2025-01-01" 1
    "Arandanos_125g" (-1) 5 5000 ⟨1, "Ana", "300", "Calle 1"⟩ rfl (by decide)
    rfl rfl (by decide)⟩
